import Mathlib

/-!
Shallow embedding of the voice-chat session core of the LinguaTube repository
(`src/components/VoiceChat.tsx`).  The React component's refs and state hooks
become fields of an explicit state record `VCState`; each event handler of the
source (`cleanup`, `onmessage`, `onerror`, `onclose`, `handleStartChat`,
`handleStopChat`, `onaudioprocess`, the playback `ended` listener) becomes a
pure Lean function on that record.  Times (the output audio clock and decoded
buffer durations) are rationals.  External effects (the browser media stream,
the two `AudioContext`s, the transport session, playback sources) are tracked
by explicit "world" fields recording whether each underlying resource has been
stopped or closed, separately from the component's nullable ref handles.

The fallible operations inside `cleanup` are exactly the ones the source wraps
in `.catch` handlers (`inputAudioContext.close()`, `outputAudioContext.close()`,
`session.close()`); they are modelled by a record of failure flags
`CleanupFails`, a failing close leaving the underlying resource unclosed but
never aborting the remaining steps, exactly as a rejected promise with an
attached `.catch` does.
-/

namespace LinguaTube

/-- The component status, `type ChatStatus` in `VoiceChat.tsx`. -/
inductive ChatStatus where
  | idle
  | connecting
  | active
  | stopped
  | error
deriving DecidableEq, Repr

/-- The speaker tag of a transcript entry. -/
inductive Speaker where
  | user
  | model
deriving DecidableEq, Repr

/-- `type TranscriptEntry = { speaker: 'user' | 'model'; text: string }`. -/
structure TranscriptEntry where
  speaker : Speaker
  text : String
deriving DecidableEq, Repr

/-- A scheduled playback source (`AudioBufferSourceNode` in the source):
its scheduled start time and the decoded buffer's duration. -/
structure PlaybackSource where
  start : ℚ
  dur : ℚ
deriving DecidableEq, Repr

/-- The component's complete mutable state: the React refs and state hooks of
`VoiceChat.tsx`, plus "world" fields recording the status of the underlying
external resources (which survive the nulling of the component's refs). -/
structure VCState where
  /-- `status` state hook. -/
  status : ChatStatus
  /-- `transcript` state hook. -/
  transcript : List TranscriptEntry
  /-- `error` state hook (`string | null`). -/
  errorMsg : Option String
  /-- `mediaStreamRef` (`MediaStream | null`), `some ()` when non-null. -/
  mediaStreamRef : Option Unit
  /-- `scriptProcessorRef` (`ScriptProcessorNode | null`). -/
  scriptProcessorRef : Option Unit
  /-- `inputAudioContextRef` (`AudioContext | null`). -/
  inputAudioContextRef : Option Unit
  /-- `outputAudioContextRef` (`AudioContext | null`). -/
  outputAudioContextRef : Option Unit
  /-- `sessionPromiseRef` (`Promise<LiveSession> | null`). -/
  sessionPromiseRef : Option Unit
  /-- The contents of `sourcesRef` (`Set<AudioBufferSourceNode>`), the active
  playback set, in insertion order. -/
  playing : List PlaybackSource
  /-- `nextStartTimeRef`. -/
  nextStartTime : ℚ
  /-- `currentInputTranscriptionRef` (user-side accumulator). -/
  inAcc : String
  /-- `currentOutputTranscriptionRef` (model-side accumulator). -/
  outAcc : String
  /-- World: the microphone tracks of the acquired stream have been stopped. -/
  micStopped : Bool
  /-- World: the script-processor node is connected into the input graph. -/
  procConnected : Bool
  /-- World: the input `AudioContext` has reached the `closed` state. -/
  inCtxClosed : Bool
  /-- World: the output `AudioContext` has reached the `closed` state. -/
  outCtxClosed : Bool
  /-- World: the transport (`LiveSession`) has been closed. -/
  sessClosed : Bool
  /-- World: log of playback sources force-stopped by cleanup. -/
  stoppedSources : List PlaybackSource
deriving DecidableEq, Repr

/-- Failure flags for the three fallible (promise-returning, `.catch`-guarded)
operations inside `cleanup`: closing the input graph, closing the output
graph, and closing the transport session.  `true` means that operation fails. -/
structure CleanupFails where
  inClose : Bool
  outClose : Bool
  sessClose : Bool
deriving DecidableEq, Repr

/-- All three fallible cleanup operations succeed. -/
def CleanupFails.none : CleanupFails := ⟨false, false, false⟩

/-- `cleanup` from `VoiceChat.tsx` (lines 34-56): stop all microphone tracks,
disconnect the script processor, close the input and output audio contexts if
not already closed, close the transport session, stop every active playback
source and clear the set, null out every ref, and reset `nextStartTimeRef`
to `0`.  A failing close (flag in `f`) leaves the underlying resource
unclosed but, thanks to the source's `.catch` handlers, never prevents any
other step from running. -/
def cleanup (f : CleanupFails) (s : VCState) : VCState :=
  { status := s.status
    transcript := s.transcript
    errorMsg := s.errorMsg
    mediaStreamRef := none
    scriptProcessorRef := none
    inputAudioContextRef := none
    outputAudioContextRef := none
    sessionPromiseRef := none
    playing := []
    nextStartTime := 0
    inAcc := s.inAcc
    outAcc := s.outAcc
    micStopped := if s.mediaStreamRef.isSome then true else s.micStopped
    procConnected := if s.scriptProcessorRef.isSome then false else s.procConnected
    inCtxClosed :=
      if s.inputAudioContextRef.isSome && !s.inCtxClosed then !f.inClose
      else s.inCtxClosed
    outCtxClosed :=
      if s.outputAudioContextRef.isSome && !s.outCtxClosed then !f.outClose
      else s.outCtxClosed
    sessClosed :=
      if s.sessionPromiseRef.isSome then (if f.sessClose then s.sessClosed else true)
      else s.sessClosed
    stoppedSources := s.stoppedSources ++ s.playing }

/-- After cleanup every resource handle is null, the active playback set is
empty, and `nextStartTime` is zero. -/
def ClearedRefs (s : VCState) : Prop :=
  s.mediaStreamRef = none ∧ s.scriptProcessorRef = none ∧
  s.inputAudioContextRef = none ∧ s.outputAudioContextRef = none ∧
  s.sessionPromiseRef = none ∧ s.playing = [] ∧ s.nextStartTime = 0

instance (s : VCState) : Decidable (ClearedRefs s) := by
  unfold ClearedRefs; infer_instance

/-- C1: Cleanup is idempotent: a second invocation (with any outcome of the
fallible closes) leaves the state of the first one unchanged, and this also
covers a session where no resources were ever acquired (arbitrary `s`).  After
cleanup every resource handle is null, the active playback set is empty, and
`nextStartTime` is zero.  No step aborts the later steps on a close failure:
for every choice of failure flags the playback sources are all force-stopped,
the microphone tracks are stopped, and the session close is attempted
(succeeding exactly when its own flag is clear). -/
theorem cleanup_idempotent (f g : CleanupFails) (s : VCState) :
    cleanup g (cleanup f s) = cleanup f s ∧
    ClearedRefs (cleanup f s) ∧
    (cleanup f s).stoppedSources = s.stoppedSources ++ s.playing ∧
    (cleanup f s).micStopped = (s.mediaStreamRef.isSome || s.micStopped) ∧
    (cleanup f s).sessClosed =
      ((s.sessionPromiseRef.isSome && !f.sessClose) || s.sessClosed) := by
  refine ⟨?_, ?_, ?_, ?_, ?_⟩
  · simp [cleanup]
  · simp [cleanup, ClearedRefs]
  · simp [cleanup]
  · cases hm : s.mediaStreamRef <;> simp [cleanup, hm]
  · cases hm : s.sessionPromiseRef <;> cases hf : f.sessClose <;> simp [cleanup, hm, hf]

/-! ## Inbound transport messages

The inbound message shape (`LiveServerMessage` as used by `onmessage`): every
field is optional — `serverContent`, the transcriptions, `turnComplete`,
`modelTurn`, a model turn's `parts` array, a part's `inlineData`, and
`inlineData`'s `data` (the base64 audio payload) can each be absent.  An
absent or falsy (empty) `turnComplete` and an absent or empty-string `data`
behave alike under the source's truthiness tests.  The access
`parts[0]?.inlineData.data` at line 140 optional-chains only `serverContent`,
`modelTurn` and `parts[0]`: with `modelTurn` present but `parts` absent the
index into `undefined` throws a `TypeError`, and with a first part present but
`inlineData` absent the `.data` access throws a `TypeError`; both throwing
shapes are representable here and modelled by `extractBase64` returning
`Except.error`. -/

/-- A transcription fragment `{ text: string }`. -/
structure Transcription where
  text : String
deriving DecidableEq, Repr

/-- `inlineData` of a model-turn part; `data` is the base64 audio payload. -/
structure InlineData where
  data : Option String
deriving DecidableEq, Repr

/-- One part of a model turn; `inlineData` is optional (e.g. a text part). -/
structure MsgPart where
  inlineData : Option InlineData
deriving DecidableEq, Repr

/-- `modelTurn: { parts?: [...] }`; the parts array itself is optional. -/
structure ModelTurn where
  parts : Option (List MsgPart)
deriving DecidableEq, Repr

/-- `serverContent` of an inbound message. -/
structure ServerContent where
  inputTranscription : Option Transcription
  outputTranscription : Option Transcription
  turnComplete : Bool
  modelTurn : Option ModelTurn
deriving DecidableEq, Repr

/-- An inbound transport message. -/
structure LiveServerMessage where
  serverContent : Option ServerContent
deriving DecidableEq, Repr

/-- `message.serverContent?.inputTranscription` (the user-side fragment). -/
def fragInOpt (m : LiveServerMessage) : Option String :=
  match m.serverContent with
  | some sc => (sc.inputTranscription).map Transcription.text
  | none => none

/-- `message.serverContent?.outputTranscription` (the model-side fragment). -/
def fragOutOpt (m : LiveServerMessage) : Option String :=
  match m.serverContent with
  | some sc => (sc.outputTranscription).map Transcription.text
  | none => none

/-- Truthiness of `message.serverContent?.turnComplete`. -/
def turnCompleteOf (m : LiveServerMessage) : Bool :=
  match m.serverContent with
  | some sc => sc.turnComplete
  | none => false

/-- The access `message.serverContent?.modelTurn?.parts[0]?.inlineData.data`
at line 140.  `Except.ok` is the value the expression evaluates to (absent
links short-circuited by `?.` give `ok none`); `Except.error ()` is a thrown
`TypeError`: indexing an absent `parts` array, or reading `.data` off an
absent `inlineData` of a present first part. -/
def extractBase64 (m : LiveServerMessage) : Except Unit (Option String) :=
  match m.serverContent with
  | some sc =>
    match sc.modelTurn with
    | some mt =>
      match mt.parts with
      | some ps =>
        match ps.head? with
        | some p =>
          match p.inlineData with
          | some idata => Except.ok idata.data
          | none => Except.error ()
        | none => Except.ok none
      | none => Except.error ()
    | none => Except.ok none
  | none => Except.ok none

/-- Whether processing the message reaches a thrown `TypeError` at the
line-140 audio extraction (the source has no handler for it: the async
callback's promise rejects unhandled, after the transcription steps of lines
123-137 have already taken effect). -/
def msgThrows (m : LiveServerMessage) : Bool :=
  match extractBase64 m with
  | Except.error _ => true
  | Except.ok _ => false

/-- The audio payload the extraction evaluates to, when it does not throw. -/
def audioPayload (m : LiveServerMessage) : Option String :=
  match extractBase64 m with
  | Except.ok d => d
  | Except.error _ => none

/-- Environment of one `onmessage` invocation: the output audio graph's
current clock reading (`outputAudioContext.currentTime`) and the duration of
the buffer produced by the external decoder (`audioBuffer.duration`) for this
message's audio payload. -/
structure AudioEnv where
  now : ℚ
  dur : ℚ
deriving DecidableEq, Repr

/-- `onmessage` step 1 (line 123-125): append a model-side fragment, when
present, to the output accumulator. -/
def stepOutputFrag (m : LiveServerMessage) (s : VCState) : VCState :=
  match fragOutOpt m with
  | some t => { s with outAcc := s.outAcc ++ t }
  | none => s

/-- `onmessage` step 2 (line 126-128): append a user-side fragment, when
present, to the input accumulator. -/
def stepInputFrag (m : LiveServerMessage) (s : VCState) : VCState :=
  match fragInOpt m with
  | some t => { s with inAcc := s.inAcc ++ t }
  | none => s

/-- JavaScript's `String.prototype.trim()` (an external builtin): strip
leading and trailing whitespace. -/
def jsTrim (s : String) : String :=
  ⟨((s.data.dropWhile Char.isWhitespace).reverse.dropWhile Char.isWhitespace).reverse⟩

/-- `onmessage` step 3 (lines 129-137): on a truthy `turnComplete`, append the
pair of accumulated texts to the transcript when at least one trims non-empty,
then reset both accumulators unconditionally. -/
def stepTurn (m : LiveServerMessage) (s : VCState) : VCState :=
  if turnCompleteOf m then
    let fullInput := s.inAcc
    let fullOutput := s.outAcc
    let s' :=
      if jsTrim fullInput ≠ "" ∨ jsTrim fullOutput ≠ "" then
        { s with transcript :=
            s.transcript ++ [⟨Speaker.user, fullInput⟩, ⟨Speaker.model, fullOutput⟩] }
      else s
    { s' with inAcc := "", outAcc := "" }
  else s

/-- `onmessage` step 4 (lines 139-155): when the extraction yields a truthy
(non-empty) base64 audio payload and the output context ref is non-null,
clamp `nextStartTime` forward to the clock, schedule a new playback source at
the clamped time, insert it into the active set, and advance `nextStartTime`
by the decoded duration.  When the extraction throws (`Except.error`), the
rest of the handler body is skipped and no state changes: the throw's only
observable is the unhandled rejection, recorded separately by `msgThrows`. -/
def stepAudio (env : AudioEnv) (m : LiveServerMessage) (s : VCState) : VCState :=
  match extractBase64 m with
  | Except.ok (some d) =>
    if d ≠ "" ∧ s.outputAudioContextRef.isSome then
      let start := max s.nextStartTime env.now
      { s with
          nextStartTime := start + env.dur
          playing := s.playing ++ [⟨start, env.dur⟩] }
    else s
  | Except.ok none => s
  | Except.error _ => s

/-- The `onmessage` callback of `VoiceChat.tsx` (lines 121-156): the four
steps run in the source's order (output fragment, input fragment, turn
completion, audio scheduling).  As a state transformer it is total: the
transcription steps always apply, and on the shapes where the line-140
extraction throws (see `msgThrows`) the audio step is skipped with no further
state change, which is exactly what the unhandled throw does in the source. -/
def handleMessage (env : AudioEnv) (m : LiveServerMessage) (s : VCState) : VCState :=
  stepAudio env m (stepTurn m (stepInputFrag m (stepOutputFrag m s)))

/-- The `ended` listener of a playback source (lines 149-151):
`sourcesRef.current.delete(source)`. -/
def handleEnded (src : PlaybackSource) (s : VCState) : VCState :=
  { s with playing := s.playing.erase src }

/-- The user-facing message set by the `onerror` callback. -/
def sessionErrMsg : String := "An error occurred during the chat session."

/-- The `onerror` callback (lines 157-162): set the error message, set status
to `error`, run full cleanup. -/
def handleError (f : CleanupFails) (s : VCState) : VCState :=
  cleanup f { s with errorMsg := some sessionErrMsg, status := ChatStatus.error }

/-- The `onclose` callback (lines 163-166): keep status `error` if it already
is `error`, otherwise set it to `stopped`; run full cleanup. -/
def handleClose (f : CleanupFails) (s : VCState) : VCState :=
  cleanup f
    { s with status :=
        if s.status = ChatStatus.error then ChatStatus.error else ChatStatus.stopped }

/-- `handleStopChat` (lines 183-186): set status to `stopped`, run full
cleanup unconditionally. -/
def handleStopChat (f : CleanupFails) (s : VCState) : VCState :=
  cleanup f { s with status := ChatStatus.stopped }

/-! ## Audio capture and session start -/

/-- The outbound wire blob `{ mimeType, data }` sent by the capture callback.
The base64 serialization of the 16-bit samples is represented by the sample
list itself. -/
structure PcmBlob where
  mimeType : String
  data : List Int
deriving DecidableEq, Repr

/-- Modelled from the spec: `createPcmBlob` lives in `utils/audioUtils`, which
is absent from `src/`; per the spec's external-interface section the outbound
frame is `{ mimeType: "audio/pcm;rate=16000", data: <base64 little-endian
16-bit PCM mono samples> }`.  A raw float sample (here a rational) is scaled
to a 16-bit integer, clamped to the signed 16-bit range; the base64 byte
serialization is left as the list of 16-bit samples. -/
def sampleToInt16 (q : ℚ) : Int :=
  max (-32768) (min 32767 ⌊q * 32768⌋)

/-- Modelled from the spec: the frame encoder (see `sampleToInt16`). -/
def createPcmBlob (frame : List ℚ) : PcmBlob :=
  ⟨"audio/pcm;rate=16000", frame.map sampleToInt16⟩

/-- The `onaudioprocess` capture callback (lines 104-110): read the frame's
samples, encode them, and — only when `sessionPromiseRef` is non-null — send
the blob through the transport.  Returns the (unchanged) state together with
the outbound send, if any. -/
def onAudioProcess (frame : List ℚ) (s : VCState) : VCState × Option PcmBlob :=
  if s.sessionPromiseRef.isSome then (s, some (createPcmBlob frame))
  else (s, none)

/-- N sequential firings of the capture callback: thread the state and collect
the outbound sends in firing order. -/
def processFrames (frames : List (List ℚ)) (s : VCState) : VCState × List PcmBlob :=
  match frames with
  | [] => (s, [])
  | fr :: rest =>
    let p := onAudioProcess fr s
    let q := processFrames rest p.1
    (q.1, p.2.toList ++ q.2)

/-- Outcome flags of the external calls made by `handleStartChat`:
whether `getUserMedia` grants the microphone, and whether construction of the
two audio contexts succeeds. -/
structure StartEnv where
  micGranted : Bool
  graphOk : Bool
deriving DecidableEq, Repr

/-- The kind of exception caught by `handleStartChat`'s catch block:
a microphone-permission failure from `getUserMedia`, or an audio-graph
construction failure. -/
inductive StartError where
  | permission
  | device
deriving DecidableEq, Repr

/-- The user-facing message set by `handleStartChat`'s catch block. -/
def micErrMsg : String :=
  "Could not access microphone. Please check permissions and try again."

/-- The synchronous prologue of `handleStartChat` (lines 62-65): set status to
`connecting`, clear the error message, and empty the transcript — all before
the previous session is torn down or any resource is acquired. -/
def startReset (s : VCState) : VCState :=
  { s with status := ChatStatus.connecting, errorMsg := none, transcript := [] }

/-- The acquisition phase of `handleStartChat` (lines 70-180), run on the
state left by the prologue and the cleanup of the previous session: acquire
the microphone stream, construct the two audio contexts, and open the
transport session; a failure at either external call lands in the single
catch block, which sets the error message and the `error` status.  Returns
the resulting state and the caught error, if any. -/
def startAcquire (env : StartEnv) (s0 : VCState) : VCState × Option StartError :=
  if env.micGranted then
    let s1 := { s0 with mediaStreamRef := some (), micStopped := false }
    if env.graphOk then
      ({ s1 with
          inputAudioContextRef := some ()
          inCtxClosed := false
          outputAudioContextRef := some ()
          outCtxClosed := false
          sessionPromiseRef := some ()
          sessClosed := false }, none)
    else
      ({ s1 with errorMsg := some micErrMsg, status := ChatStatus.error },
        some StartError.device)
  else
    ({ s0 with errorMsg := some micErrMsg, status := ChatStatus.error },
      some StartError.permission)

/-- `handleStartChat` (lines 62-181): prologue, cleanup of the previous
session, then acquisition. -/
def handleStartChat (env : StartEnv) (f : CleanupFails) (s : VCState) :
    VCState × Option StartError :=
  startAcquire env (cleanup f (startReset s))

/-! ## Gapless scheduling: spec-side recurrence and code-side fold -/

/-- The initial component state: the initial values of every `useState` and
`useRef` hook in `VoiceChat.tsx` (status `idle`, empty transcript, null error,
null refs, empty playback set, `nextStartTime = 0`, empty accumulators), with
all world flags clear. -/
def initState : VCState :=
  { status := ChatStatus.idle
    transcript := []
    errorMsg := none
    mediaStreamRef := none
    scriptProcessorRef := none
    inputAudioContextRef := none
    outputAudioContextRef := none
    sessionPromiseRef := none
    playing := []
    nextStartTime := 0
    inAcc := ""
    outAcc := ""
    micStopped := false
    procConnected := false
    inCtxClosed := false
    outCtxClosed := false
    sessClosed := false
    stoppedSources := [] }

/-- Modelled from the spec: the gapless scheduling law's start times for
chunks `(tᵢ, dᵢ)` (clock reading, duration) from a given `nextPlaybackTime`:
each chunk starts at `max nextPlaybackTime tᵢ` and advances
`nextPlaybackTime` by `dᵢ`. -/
def specStarts : ℚ → List (ℚ × ℚ) → List ℚ
  | _, [] => []
  | npt, (t, d) :: rest => max npt t :: specStarts (max npt t + d) rest

/-- Modelled from the spec: the value of `nextPlaybackTime` after the chunks. -/
def specNext : ℚ → List (ℚ × ℚ) → ℚ
  | npt, [] => npt
  | npt, (t, d) :: rest => specNext (max npt t + d) rest

/-- The playback entries the scheduling law predicts. -/
def specEntries : ℚ → List (ℚ × ℚ) → List PlaybackSource
  | _, [] => []
  | npt, (t, d) :: rest => ⟨max npt t, d⟩ :: specEntries (max npt t + d) rest

/-- An inbound message carrying only an audio payload `d`. -/
def mkAudioMsg (d : String) : LiveServerMessage :=
  ⟨some ⟨none, none, false, some ⟨some [⟨some ⟨some d⟩⟩]⟩⟩⟩

/-- Process a sequence of audio chunks `(tᵢ, dᵢ)` through the `onmessage`
handler: chunk `i` is an audio-bearing message handled while the output clock
reads `tᵢ` and whose payload decodes to duration `dᵢ`. -/
def runAudioChunks (s : VCState) (chunks : List (ℚ × ℚ)) : VCState :=
  chunks.foldl
    (fun st td => handleMessage ⟨td.1, td.2⟩ (mkAudioMsg "audio") st) s

/-- Characterization of `onmessage` on a pure audio message with a non-null
output context: the handler clamps `nextStartTime` to the clock, appends one
source scheduled at the clamped time, and advances by the duration. -/
theorem handleMessage_audio (env : AudioEnv) (d : String) (hd : d ≠ "")
    (s : VCState) (ho : s.outputAudioContextRef.isSome = true) :
    handleMessage env (mkAudioMsg d) s =
      { s with
          nextStartTime := max s.nextStartTime env.now + env.dur
          playing := s.playing ++ [⟨max s.nextStartTime env.now, env.dur⟩] } := by
  simp [handleMessage, stepOutputFrag, stepInputFrag, stepTurn, stepAudio,
    fragOutOpt, fragInOpt, turnCompleteOf, extractBase64, mkAudioMsg, hd, ho]

/-- Invariant of the chunk fold: starting with any state whose output-context
ref is non-null, the active set grows by exactly the spec's predicted entries
and `nextStartTime` becomes the spec's predicted next value. -/
theorem runAudioChunks_spec (chunks : List (ℚ × ℚ)) :
    ∀ s : VCState, s.outputAudioContextRef.isSome = true →
      (runAudioChunks s chunks).playing = s.playing ++ specEntries s.nextStartTime chunks ∧
      (runAudioChunks s chunks).nextStartTime = specNext s.nextStartTime chunks := by
  induction chunks with
  | nil => intro s ho; simp [runAudioChunks, specEntries, specNext]
  | cons c rest ih =>
    intro s ho
    obtain ⟨t, d⟩ := c
    have hmsg := handleMessage_audio ⟨t, d⟩ "audio" (by decide) s ho
    have hstep : runAudioChunks s ((t, d) :: rest) =
        runAudioChunks (handleMessage ⟨t, d⟩ (mkAudioMsg "audio") s) rest := by
      simp [runAudioChunks, List.foldl_cons]
    have ho' : (handleMessage ⟨t, d⟩ (mkAudioMsg "audio") s).outputAudioContextRef.isSome
        = true := by rw [hmsg]; exact ho
    have hih := ih (handleMessage ⟨t, d⟩ (mkAudioMsg "audio") s) ho'
    rw [hstep]
    refine ⟨?_, ?_⟩
    · rw [hih.1, hmsg]
      simp [specEntries]
    · rw [hih.2, hmsg]
      simp [specNext]

/-- The entries predicted by the law carry exactly the spec's start times. -/
theorem specEntries_map_start (chunks : List (ℚ × ℚ)) :
    ∀ npt : ℚ, (specEntries npt chunks).map PlaybackSource.start = specStarts npt chunks := by
  induction chunks with
  | nil => intro npt; simp [specEntries, specStarts]
  | cons c rest ih =>
    intro npt
    obtain ⟨t, d⟩ := c
    simp [specEntries, specStarts, ih]

/-- Consecutive spec start times obey `startᵢ₊₁ = max (startᵢ + dᵢ) tᵢ₊₁`. -/
theorem specStarts_succ (chunks : List (ℚ × ℚ)) :
    ∀ (npt : ℚ) (i : ℕ), i + 1 < chunks.length →
      (specStarts npt chunks).getD (i + 1) 0 =
        max ((specStarts npt chunks).getD i 0 + (chunks.getD i (0, 0)).2)
          ((chunks.getD (i + 1) (0, 0)).1) := by
  induction chunks with
  | nil => intro npt i h; simp at h
  | cons c rest ih =>
    intro npt i h
    obtain ⟨t, d⟩ := c
    cases i with
    | zero =>
      cases rest with
      | nil => simp at h
      | cons c2 r2 =>
        obtain ⟨t2, d2⟩ := c2
        simp [specStarts, max_comm]
    | succ j =>
      have hj : j + 1 < rest.length := by
        simpa using Nat.lt_of_succ_lt_succ h
      have := ih (max npt t + d) j hj
      simpa [specStarts] using this

/-- `nextPlaybackTime` after the first `i + 1` chunks is `startᵢ + dᵢ`. -/
theorem specNext_take (chunks : List (ℚ × ℚ)) :
    ∀ (npt : ℚ) (i : ℕ), i < chunks.length →
      specNext npt (chunks.take (i + 1)) =
        (specStarts npt chunks).getD i 0 + (chunks.getD i (0, 0)).2 := by
  induction chunks with
  | nil => intro npt i h; simp at h
  | cons c rest ih =>
    intro npt i h
    obtain ⟨t, d⟩ := c
    cases i with
    | zero => simp [specNext, specStarts]
    | succ j =>
      have hj : j < rest.length := by simpa using Nat.lt_of_succ_lt_succ h
      have := ih (max npt t + d) j hj
      simpa [specNext, specStarts] using this

/-- C2: Gapless scheduling law.  Starting from `nextPlaybackTime = 0` (and an
empty active set), processing inbound chunks of durations `dᵢ` while the
output clock reads `tᵢ` schedules sources whose start times are exactly the
spec recurrence `specStarts 0`; the recurrence satisfies
`start₁ = max 0 t₁` and `startᵢ₊₁ = max (startᵢ + dᵢ) tᵢ₊₁`; and after chunk
`i` the value of `nextPlaybackTime` is `startᵢ + dᵢ`. -/
theorem gapless_scheduling (chunks : List (ℚ × ℚ)) (s : VCState)
    (ho : s.outputAudioContextRef.isSome = true)
    (h0 : s.nextStartTime = 0) (hp : s.playing = []) :
    ((runAudioChunks s chunks).playing.map PlaybackSource.start = specStarts 0 chunks) ∧
    ((runAudioChunks s chunks).nextStartTime = specNext 0 chunks) ∧
    (chunks ≠ [] → (specStarts 0 chunks).getD 0 0 = max 0 (chunks.getD 0 (0, 0)).1) ∧
    (∀ i : ℕ, i + 1 < chunks.length →
      (specStarts 0 chunks).getD (i + 1) 0 =
        max ((specStarts 0 chunks).getD i 0 + (chunks.getD i (0, 0)).2)
          ((chunks.getD (i + 1) (0, 0)).1)) ∧
    (∀ i : ℕ, i < chunks.length →
      (runAudioChunks s (chunks.take (i + 1))).nextStartTime =
        (specStarts 0 chunks).getD i 0 + (chunks.getD i (0, 0)).2) := by
  have hmain := runAudioChunks_spec chunks s ho
  refine ⟨?_, ?_, ?_, ?_, ?_⟩
  · rw [hmain.1, hp, h0]
    simpa using specEntries_map_start chunks 0
  · rw [hmain.2, h0]
  · intro hne
    cases chunks with
    | nil => exact absurd rfl hne
    | cons c rest =>
      obtain ⟨t, d⟩ := c
      simp [specStarts]
  · intro i hi
    exact specStarts_succ chunks 0 i hi
  · intro i hi
    have htake := runAudioChunks_spec (chunks.take (i + 1)) s ho
    rw [htake.2, h0]
    exact specNext_take chunks 0 i hi

/-- The spec's worked example: durations `0.5, 0.3, 0.4` at clock times
`0, 0.6, 0.9`. -/
def exChunks : List (ℚ × ℚ) := [(0, 1/2), (3/5, 3/10), (9/10, 2/5)]

/-- A state with a live output audio graph and nothing scheduled yet. -/
def exOutState : VCState := { initState with outputAudioContextRef := some () }

/-- Witness for C2 at the spec's example: starts `0, 0.6, 0.9`, final
`nextPlaybackTime` `1.3`. -/
theorem gapless_scheduling_witness :
    (runAudioChunks exOutState exChunks).playing.map PlaybackSource.start
        = [0, 3/5, 9/10] ∧
    (runAudioChunks exOutState exChunks).nextStartTime = 13/10 := by
  have h := gapless_scheduling exChunks exOutState rfl rfl rfl
  refine ⟨?_, ?_⟩
  · rw [h.1]; norm_num [specStarts, exChunks, max_def]
  · rw [h.2.1]; norm_num [specNext, exChunks, max_def]

/-! ## Characterizations of the four `onmessage` steps -/

/-- The user-side fragment text carried by a message (empty when absent). -/
def fragInText (m : LiveServerMessage) : String := (fragInOpt m).getD ""

/-- The model-side fragment text carried by a message (empty when absent). -/
def fragOutText (m : LiveServerMessage) : String := (fragOutOpt m).getD ""

theorem stepOutputFrag_eta (m : LiveServerMessage) (s : VCState) :
    stepOutputFrag m s = { s with outAcc := s.outAcc ++ fragOutText m } := by
  unfold stepOutputFrag fragOutText
  cases hx : fragOutOpt m <;> simp [hx]

theorem stepInputFrag_eta (m : LiveServerMessage) (s : VCState) :
    stepInputFrag m s = { s with inAcc := s.inAcc ++ fragInText m } := by
  unfold stepInputFrag fragInText
  cases hx : fragInOpt m <;> simp [hx]

theorem stepTurn_eta (m : LiveServerMessage) (s : VCState) :
    stepTurn m s =
      if turnCompleteOf m then
        { s with
            transcript :=
              if jsTrim s.inAcc ≠ "" ∨ jsTrim s.outAcc ≠ "" then
                s.transcript ++ [⟨Speaker.user, s.inAcc⟩, ⟨Speaker.model, s.outAcc⟩]
              else s.transcript
            inAcc := ""
            outAcc := "" }
      else s := by
  unfold stepTurn
  by_cases h : turnCompleteOf m
  · rcases em (jsTrim s.inAcc ≠ "" ∨ jsTrim s.outAcc ≠ "") with h2 | h2 <;> simp [h, h2]
  · simp [h]

theorem stepAudio_eta (env : AudioEnv) (m : LiveServerMessage) (s : VCState) :
    stepAudio env m s =
      if (audioPayload m).getD "" ≠ "" ∧ s.outputAudioContextRef.isSome then
        { s with
            nextStartTime := max s.nextStartTime env.now + env.dur
            playing := s.playing ++ [⟨max s.nextStartTime env.now, env.dur⟩] }
      else s := by
  unfold stepAudio audioPayload
  cases hx : extractBase64 m with
  | error e => simp [hx]
  | ok d =>
    cases d with
    | none => simp [hx]
    | some d => by_cases hd : d = "" <;> simp [hx, hd]

/-- The `onmessage` handler never touches the resource handles, the world
resource flags, the status, or the error message. -/
theorem handleMessage_frame (env : AudioEnv) (m : LiveServerMessage) (s : VCState) :
    (handleMessage env m s).mediaStreamRef = s.mediaStreamRef ∧
    (handleMessage env m s).scriptProcessorRef = s.scriptProcessorRef ∧
    (handleMessage env m s).inputAudioContextRef = s.inputAudioContextRef ∧
    (handleMessage env m s).outputAudioContextRef = s.outputAudioContextRef ∧
    (handleMessage env m s).sessionPromiseRef = s.sessionPromiseRef ∧
    (handleMessage env m s).micStopped = s.micStopped ∧
    (handleMessage env m s).procConnected = s.procConnected ∧
    (handleMessage env m s).inCtxClosed = s.inCtxClosed ∧
    (handleMessage env m s).outCtxClosed = s.outCtxClosed ∧
    (handleMessage env m s).sessClosed = s.sessClosed ∧
    (handleMessage env m s).stoppedSources = s.stoppedSources ∧
    (handleMessage env m s).status = s.status ∧
    (handleMessage env m s).errorMsg = s.errorMsg := by
  simp only [handleMessage, stepOutputFrag_eta, stepInputFrag_eta, stepTurn_eta, stepAudio_eta]
  split_ifs <;> simp_all

/-- C3: Turn flush rule.  On a turn-complete message the handler reads both
accumulators (with this message's own fragments, if any, already appended):
when either trims non-empty, exactly the pair
`{user, userAccumulator}, {model, modelAccumulator}` is appended to the
transcript (even if one side is empty); when both trim empty, nothing is
appended; in every case both accumulators are reset to the empty string. -/
theorem turn_flush (env : AudioEnv) (m : LiveServerMessage) (s : VCState)
    (htc : turnCompleteOf m = true) :
    ((jsTrim (s.inAcc ++ fragInText m) ≠ "" ∨ jsTrim (s.outAcc ++ fragOutText m) ≠ "") →
      (handleMessage env m s).transcript =
        s.transcript ++ [⟨Speaker.user, s.inAcc ++ fragInText m⟩,
          ⟨Speaker.model, s.outAcc ++ fragOutText m⟩]) ∧
    (jsTrim (s.inAcc ++ fragInText m) = "" → jsTrim (s.outAcc ++ fragOutText m) = "" →
      (handleMessage env m s).transcript = s.transcript) ∧
    (handleMessage env m s).inAcc = "" ∧
    (handleMessage env m s).outAcc = "" := by
  simp only [handleMessage, stepOutputFrag_eta, stepInputFrag_eta, stepTurn_eta, stepAudio_eta,
    htc, if_true]
  refine ⟨?_, ?_, ?_, ?_⟩
  · intro hne
    split_ifs <;> simp_all
  · intro hi ho
    split_ifs <;> simp_all
  · split_ifs <;> simp_all
  · split_ifs <;> simp_all

/-- C6 counterexample: two messages the claim covers ("absent parts", "absent
inlineData") on which the handler does not silently ignore the unmatched part:
the line-140 access throws a `TypeError`.  First message: `modelTurn` present
with no `parts` array; second message: a first part with no `inlineData`. -/
theorem permissive_handling_counterexample :
    msgThrows ⟨some ⟨none, none, false, some ⟨none⟩⟩⟩ = true ∧
    msgThrows ⟨some ⟨none, none, false, some ⟨some [⟨none⟩]⟩⟩⟩ = true := by
  decide

/-- C6 (amended): Permissive message handling except for two throwing shapes.
A message with no `serverContent` changes nothing and raises nothing; a
message whose audio extraction evaluates to no (or an empty) payload schedules
no playback and leaves `nextStartTime` alone; absent `turnComplete` leaves the
transcript alone; an absent fragment (with no turn completion) leaves that
side's accumulator alone; status and error message are never touched; and the
handler throws exactly on the two shapes the optional chain at line 140 fails
to guard — `modelTurn` with an absent `parts` array, or a present first part
with an absent `inlineData` — where the throw skips the audio block (scheduling
nothing) after the transcription steps have already applied. -/
theorem permissive_handling (env : AudioEnv) (m : LiveServerMessage) (s : VCState) :
    (m.serverContent = none → handleMessage env m s = s ∧ msgThrows m = false) ∧
    ((audioPayload m = none ∨ audioPayload m = some "") →
      (handleMessage env m s).playing = s.playing ∧
      (handleMessage env m s).nextStartTime = s.nextStartTime) ∧
    (turnCompleteOf m = false → (handleMessage env m s).transcript = s.transcript) ∧
    (fragInOpt m = none → turnCompleteOf m = false →
      (handleMessage env m s).inAcc = s.inAcc) ∧
    (fragOutOpt m = none → turnCompleteOf m = false →
      (handleMessage env m s).outAcc = s.outAcc) ∧
    (handleMessage env m s).status = s.status ∧
    (handleMessage env m s).errorMsg = s.errorMsg ∧
    (msgThrows m = true →
      (handleMessage env m s).playing = s.playing ∧
      (handleMessage env m s).nextStartTime = s.nextStartTime) ∧
    (msgThrows m = true ↔
      ∃ sc mt, m.serverContent = some sc ∧ sc.modelTurn = some mt ∧
        (mt.parts = none ∨
          ∃ p ps, mt.parts = some (p :: ps) ∧ p.inlineData = none)) := by
  have hsched : (audioPayload m).getD "" = "" →
      (handleMessage env m s).playing = s.playing ∧
      (handleMessage env m s).nextStartTime = s.nextStartTime := by
    intro hx
    simp only [handleMessage, stepOutputFrag_eta, stepInputFrag_eta, stepTurn_eta,
      stepAudio_eta, hx]
    split_ifs <;> simp_all
  refine ⟨?_, ?_, ?_, ?_, ?_, (handleMessage_frame env m s).2.2.2.2.2.2.2.2.2.2.2.1,
    (handleMessage_frame env m s).2.2.2.2.2.2.2.2.2.2.2.2, ?_, ?_⟩
  · intro h
    constructor
    · simp [handleMessage, stepOutputFrag, stepInputFrag, stepTurn, stepAudio,
        fragOutOpt, fragInOpt, turnCompleteOf, extractBase64, h]
    · simp [msgThrows, extractBase64, h]
  · intro h
    exact hsched (by rcases h with h | h <;> simp [h])
  · intro h
    simp only [handleMessage, stepOutputFrag_eta, stepInputFrag_eta, stepTurn_eta,
      stepAudio_eta, h]
    split_ifs <;> simp_all
  · intro h htc
    have hi : fragInText m = "" := by simp [fragInText, h]
    simp only [handleMessage, stepOutputFrag_eta, stepInputFrag_eta, stepTurn_eta,
      stepAudio_eta, htc, hi]
    split_ifs <;> simp_all
  · intro h htc
    have ho : fragOutText m = "" := by simp [fragOutText, h]
    simp only [handleMessage, stepOutputFrag_eta, stepInputFrag_eta, stepTurn_eta,
      stepAudio_eta, htc, ho]
    split_ifs <;> simp_all
  · intro ht
    refine hsched ?_
    unfold audioPayload
    unfold msgThrows at ht
    cases hx : extractBase64 m with
    | error e => simp
    | ok d => rw [hx] at ht; simp at ht
  · obtain ⟨sc⟩ := m
    cases sc with
    | none => simp [msgThrows, extractBase64]
    | some sc =>
      cases hmt : sc.modelTurn with
      | none => simp [msgThrows, extractBase64, hmt]
      | some mt =>
        cases hps : mt.parts with
        | none => simp [msgThrows, extractBase64, hmt, hps]
        | some ps =>
          cases ps with
          | nil => simp [msgThrows, extractBase64, hmt, hps]
          | cons p rest =>
            cases hid : p.inlineData with
            | none => simp [msgThrows, extractBase64, hmt, hps, hid]
            | some idata => simp [msgThrows, extractBase64, hmt, hps, hid]

/-- C9: Post-cleanup callbacks are safe no-ops.  On a state whose resource
handles have been nulled (the state cleanup leaves behind), a capture-callback
firing performs no send and leaves the state unchanged; an inbound message
schedules no playback (the active set stays empty and `nextPlaybackTime`
stays zero) and mutates no resource handle or resource state; a playback
completion callback leaves the state unchanged. -/
theorem post_cleanup_noop (env : AudioEnv) (m : LiveServerMessage)
    (fr : List ℚ) (src : PlaybackSource) (s : VCState) (h : ClearedRefs s) :
    onAudioProcess fr s = (s, none) ∧
    (handleMessage env m s).playing = [] ∧
    (handleMessage env m s).nextStartTime = 0 ∧
    (handleMessage env m s).mediaStreamRef = none ∧
    (handleMessage env m s).scriptProcessorRef = none ∧
    (handleMessage env m s).inputAudioContextRef = none ∧
    (handleMessage env m s).outputAudioContextRef = none ∧
    (handleMessage env m s).sessionPromiseRef = none ∧
    (handleMessage env m s).micStopped = s.micStopped ∧
    (handleMessage env m s).inCtxClosed = s.inCtxClosed ∧
    (handleMessage env m s).outCtxClosed = s.outCtxClosed ∧
    (handleMessage env m s).sessClosed = s.sessClosed ∧
    (handleMessage env m s).stoppedSources = s.stoppedSources ∧
    handleEnded src s = s := by
  obtain ⟨h1, h2, h3, h4, h5, h6, h7⟩ := h
  have hframe := handleMessage_frame env m s
  have hsched : (handleMessage env m s).playing = s.playing ∧
      (handleMessage env m s).nextStartTime = s.nextStartTime := by
    simp only [handleMessage, stepOutputFrag_eta, stepInputFrag_eta, stepTurn_eta,
      stepAudio_eta, h4]
    split_ifs <;> simp_all
  refine ⟨?_, ?_, ?_, hframe.1.trans h1, hframe.2.1.trans h2, hframe.2.2.1.trans h3,
    hframe.2.2.2.1.trans h4, hframe.2.2.2.2.1.trans h5, hframe.2.2.2.2.2.1,
    hframe.2.2.2.2.2.2.2.1, hframe.2.2.2.2.2.2.2.2.1, hframe.2.2.2.2.2.2.2.2.2.1,
    hframe.2.2.2.2.2.2.2.2.2.2.1, ?_⟩
  · simp [onAudioProcess, h5]
  · rw [hsched.1, h6]
  · rw [hsched.2, h7]
  · unfold handleEnded
    rw [h6]
    cases s
    simp_all

/-- A state in which a transport session handle is present. -/
def exSessState : VCState := { initState with sessionPromiseRef := some () }

/-- Witness for C3: accumulators `"Hola"` (user) and `""` (model), then a pure
turn-complete message: exactly the pair `{user, "Hola"}, {model, ""}` is
appended and both accumulators reset. -/
theorem turn_flush_witness :
    (handleMessage ⟨0, 0⟩ ⟨some ⟨none, none, true, none⟩⟩
        { initState with inAcc := "Hola" }).transcript =
      [⟨Speaker.user, "Hola"⟩, ⟨Speaker.model, ""⟩] ∧
    (handleMessage ⟨0, 0⟩ ⟨some ⟨none, none, true, none⟩⟩
        { initState with inAcc := "Hola" }).inAcc = "" ∧
    (handleMessage ⟨0, 0⟩ ⟨some ⟨none, none, true, none⟩⟩
        { initState with inAcc := "Hola" }).outAcc = "" := by
  have h := turn_flush ⟨0, 0⟩ ⟨some ⟨none, none, true, none⟩⟩
    { initState with inAcc := "Hola" } rfl
  refine ⟨?_, h.2.2.1, h.2.2.2⟩
  have h1 := h.1 (by decide)
  rw [h1]
  decide

/-- Witness for C6: the empty message leaves the state unchanged and throws
nothing. -/
theorem permissive_handling_witness :
    handleMessage ⟨0, 0⟩ ⟨none⟩ exOutState = exOutState ∧
    msgThrows ⟨none⟩ = false := by
  exact ⟨((permissive_handling ⟨0, 0⟩ ⟨none⟩ exOutState).1 rfl).1,
    ((permissive_handling ⟨0, 0⟩ ⟨none⟩ exOutState).1 rfl).2⟩

/-- Witness for C9 on the initial (fully cleared) state. -/
theorem post_cleanup_noop_witness :
    onAudioProcess [0] initState = (initState, none) ∧
    (handleMessage ⟨1, 1⟩ (mkAudioMsg "x") initState).playing = [] ∧
    handleEnded ⟨0, 1⟩ initState = initState := by
  have h := post_cleanup_noop ⟨1, 1⟩ (mkAudioMsg "x") [0] ⟨0, 1⟩ initState
    ⟨rfl, rfl, rfl, rfl, rfl, rfl, rfl⟩
  exact ⟨h.1, h.2.1, h.2.2.2.2.2.2.2.2.2.2.2.2.2⟩

/-! ## Error, close and stop transitions; start; capture -/

/-- A session in the `active` state holding all its resources: microphone
stream, both audio graphs (not yet closed) and the transport handle. -/
def ActiveSession (s : VCState) : Prop :=
  s.status = ChatStatus.active ∧ s.mediaStreamRef = some () ∧
  s.inputAudioContextRef = some () ∧ s.outputAudioContextRef = some () ∧
  s.sessionPromiseRef = some () ∧ s.inCtxClosed = false ∧ s.outCtxClosed = false

instance (s : VCState) : Decidable (ActiveSession s) := by
  unfold ActiveSession; infer_instance

/-- C4: Error transition with transcript retention.  A transport error on an
active session (with the fallible closes succeeding) yields status `error`, the
non-empty user-facing message, nulled handles with an empty active set, a
stopped microphone, closed audio graphs, a closed transport, every formerly
active playback source force-stopped — and the transcript exactly as it was
before the error (no rollback). -/
theorem error_transition (f : CleanupFails) (s : VCState) (hA : ActiveSession s)
    (hin : f.inClose = false) (hout : f.outClose = false) (hsess : f.sessClose = false) :
    (handleError f s).status = ChatStatus.error ∧
    (handleError f s).errorMsg = some sessionErrMsg ∧
    sessionErrMsg ≠ "" ∧
    ClearedRefs (handleError f s) ∧
    (handleError f s).micStopped = true ∧
    (handleError f s).inCtxClosed = true ∧
    (handleError f s).outCtxClosed = true ∧
    (handleError f s).sessClosed = true ∧
    (handleError f s).stoppedSources = s.stoppedSources ++ s.playing ∧
    (handleError f s).transcript = s.transcript := by
  obtain ⟨h1, h2, h3, h4, h5, h6, h7⟩ := hA
  refine ⟨?_, ?_, by decide, ?_, ?_, ?_, ?_, ?_, ?_, ?_⟩ <;>
    simp [handleError, cleanup, ClearedRefs, h2, h3, h4, h5, h6, h7, hin, hout, hsess]

/-- C5: Transport-close status rule.  `onclose` keeps status `error` when it
already is `error` and sets `stopped` otherwise, and runs full cleanup;
`handleStopChat` sets status `stopped` and runs full cleanup unconditionally
(for every state, including one holding no resources). -/
theorem close_and_stop_status (f : CleanupFails) (s : VCState) :
    (handleClose f s).status =
      (if s.status = ChatStatus.error then ChatStatus.error else ChatStatus.stopped) ∧
    ClearedRefs (handleClose f s) ∧
    (handleClose f s).stoppedSources = s.stoppedSources ++ s.playing ∧
    (handleStopChat f s).status = ChatStatus.stopped ∧
    ClearedRefs (handleStopChat f s) ∧
    (handleStopChat f s).stoppedSources = s.stoppedSources ++ s.playing := by
  refine ⟨?_, ?_, ?_, ?_, ?_, ?_⟩ <;>
    simp [handleClose, handleStopChat, cleanup, ClearedRefs]

/-- C7: Start failure taxonomy.  When microphone access is denied the caught
failure is the permission error; when the microphone is granted but
audio-graph construction fails it is the distinct device error; in both cases
the resulting status is `error` and the non-empty user-facing message is
surfaced. -/
theorem start_failure_taxonomy (env : StartEnv) (f : CleanupFails) (s : VCState) :
    (env.micGranted = false →
      (handleStartChat env f s).2 = some StartError.permission ∧
      (handleStartChat env f s).1.status = ChatStatus.error ∧
      (handleStartChat env f s).1.errorMsg = some micErrMsg) ∧
    (env.micGranted = true → env.graphOk = false →
      (handleStartChat env f s).2 = some StartError.device ∧
      (handleStartChat env f s).1.status = ChatStatus.error ∧
      (handleStartChat env f s).1.errorMsg = some micErrMsg) ∧
    micErrMsg ≠ "" ∧
    StartError.permission ≠ StartError.device := by
  refine ⟨?_, ?_, by decide, by decide⟩
  · intro h
    simp [handleStartChat, startAcquire, h]
  · intro h1 h2
    simp [handleStartChat, startAcquire, h1, h2]

/-- C8: Frame ordering.  With a transport handle present, `N` sequential
firings of the capture callback produce exactly `N` sends, in firing order,
the `i`-th send carrying the PCM encoding of the `i`-th frame; the state is
untouched, so no frame is buffered, dropped or duplicated. -/
theorem frame_ordering (frames : List (List ℚ)) (s : VCState)
    (h : s.sessionPromiseRef.isSome = true) :
    (processFrames frames s).2 = frames.map createPcmBlob ∧
    (processFrames frames s).2.length = frames.length ∧
    (processFrames frames s).1 = s := by
  induction frames with
  | nil => simp [processFrames]
  | cons fr rest ih =>
    have hstep : onAudioProcess fr s = (s, some (createPcmBlob fr)) := by
      simp [onAudioProcess, h]
    refine ⟨?_, ?_, ?_⟩ <;> simp [processFrames, hstep, ih.1, ih.2.2]

/-- C10: Every invocation of start resets the visible transcript to the empty
sequence and clears the error message before the previous session is torn
down or any resource is acquired (the prologue `startReset` does exactly
that); consequently the transcript after start is empty, the error message
after start depends only on this attempt's outcome, and neither depends on
the prior state — nothing from a previous session remains visible. -/
theorem start_resets_ui (env : StartEnv) (f : CleanupFails) (s s₂ : VCState) :
    (startReset s).transcript = [] ∧
    (startReset s).errorMsg = none ∧
    (handleStartChat env f s).1.transcript = [] ∧
    (handleStartChat env f s).1.errorMsg =
      (if env.micGranted && env.graphOk then none else some micErrMsg) ∧
    (handleStartChat env f s).1.transcript = (handleStartChat env f s₂).1.transcript ∧
    (handleStartChat env f s).1.errorMsg = (handleStartChat env f s₂).1.errorMsg := by
  cases hm : env.micGranted <;> cases hg : env.graphOk <;>
    refine ⟨rfl, rfl, ?_, ?_, ?_, ?_⟩ <;>
      simp [handleStartChat, startAcquire, startReset, cleanup, hm, hg]

/-- Witness for C4: a transport error on a concrete active session with one
playing source and a two-entry transcript. -/
theorem error_transition_witness :
    (handleError CleanupFails.none
        { initState with
            status := ChatStatus.active
            mediaStreamRef := some ()
            scriptProcessorRef := some ()
            inputAudioContextRef := some ()
            outputAudioContextRef := some ()
            sessionPromiseRef := some ()
            procConnected := true
            transcript := [⟨Speaker.user, "Hola"⟩, ⟨Speaker.model, "Hi"⟩]
            playing := [⟨0, 1⟩] }).status = ChatStatus.error ∧
    (handleError CleanupFails.none
        { initState with
            status := ChatStatus.active
            mediaStreamRef := some ()
            scriptProcessorRef := some ()
            inputAudioContextRef := some ()
            outputAudioContextRef := some ()
            sessionPromiseRef := some ()
            procConnected := true
            transcript := [⟨Speaker.user, "Hola"⟩, ⟨Speaker.model, "Hi"⟩]
            playing := [⟨0, 1⟩] }).transcript =
      [⟨Speaker.user, "Hola"⟩, ⟨Speaker.model, "Hi"⟩] := by
  have h := error_transition CleanupFails.none
    { initState with
        status := ChatStatus.active
        mediaStreamRef := some ()
        scriptProcessorRef := some ()
        inputAudioContextRef := some ()
        outputAudioContextRef := some ()
        sessionPromiseRef := some ()
        procConnected := true
        transcript := [⟨Speaker.user, "Hola"⟩, ⟨Speaker.model, "Hi"⟩]
        playing := [⟨0, 1⟩] }
    ⟨rfl, rfl, rfl, rfl, rfl, rfl, rfl⟩ rfl rfl rfl
  exact ⟨h.1, h.2.2.2.2.2.2.2.2.2⟩

/-- Witness for C7: denied microphone yields the permission error; granted
microphone with failing graph construction yields the device error. -/
theorem start_failure_taxonomy_witness :
    (handleStartChat ⟨false, true⟩ CleanupFails.none initState).2 =
      some StartError.permission ∧
    (handleStartChat ⟨true, false⟩ CleanupFails.none initState).2 =
      some StartError.device := by
  have h1 := start_failure_taxonomy ⟨false, true⟩ CleanupFails.none initState
  have h2 := start_failure_taxonomy ⟨true, false⟩ CleanupFails.none initState
  exact ⟨(h1.1 rfl).1, (h2.2.1 rfl rfl).1⟩

/-- Witness for C8: two frames through a session that holds a transport
handle produce exactly their two encoded blobs in order. -/
theorem frame_ordering_witness :
    (processFrames [[0], [1/2]] exSessState).2 =
      [createPcmBlob [0], createPcmBlob [1/2]] ∧
    (processFrames [[0], [1/2]] exSessState).1 = exSessState := by
  have h := frame_ordering [[0], [1/2]] exSessState rfl
  exact ⟨h.1, h.2.2⟩

end LinguaTube
